import Mathlib

/-
Verification development for the open-meteo API client
(src/open_meteo_client.py, src/models.py, main.py).

The client is a pure request/response reshaping layer: it builds query
parameters, performs one HTTP GET (external), parses the JSON body into a
timestamp-to-temperature mapping, and either selects the nearest timestamp
or filters the mapping by hour of day.  The shallow embedding below mirrors
the Python code definition by definition; the outbound HTTP call itself is
external, so the fetching operations are parameterized by the HTTP response
the upstream returns.

Modelling conventions:
- A Python datetime is represented by its total number of minutes since
  0001-01-01T00:00 in the proleptic Gregorian calendar (the timestamps the
  upstream emits have minute precision).  datetime subtraction becomes
  natural-number distance, and the hour attribute becomes minutes mod 1440
  div 60.
- Python dicts with insertion order are association lists; dict insertion
  overwrites in place on an existing key and appends otherwise.
- IEEE-754 float payloads (temperatures, coordinates) are never computed
  with by the client, only carried, so they are represented by integers;
  str(float) digit rendering is likewise carried as integer rendering since
  no claim inspects the digits.
- Exceptions are an explicit error type; raising is returning Except.error.
-/

namespace OpenMeteo

/-- A Python datetime, as total minutes since 0001-01-01T00:00. -/
abbrev DT := Nat

/-- The hour attribute of a datetime: minutes within the day, divided by 60.
Always in 0..23. -/
def hourOf (dt : DT) : Nat := dt % 1440 / 60

/-- Absolute difference of two datetimes, modelling abs(x - y) on
Python datetimes (a timedelta, compared by magnitude). -/
def absDiff (a b : DT) : Nat := max a b - min a b

/-- A JSON value as far as the client inspects one: strings, numbers
(carried as integers, see the conventions above), arrays, or anything
else (null, objects, booleans) which the client treats uniformly as
a non-iterable non-string value. -/
inductive JVal where
  | jstr (s : String)
  | jnum (n : Int)
  | jarr (xs : List JVal)
  | jother
deriving Repr

/-- The upstream JSON body as the client reads it: optional top-level
latitude and longitude, and an optional hourly object, an insertion-ordered
mapping from provider-defined keys to JSON values. -/
structure Resp where
  latitude : Option Int
  longitude : Option Int
  hourly : Option (List (String × JVal))
deriving Repr

/-- The payload of an HTTPException detail string, carried structurally:
each constructor holds exactly the data the corresponding f-string embeds. -/
inductive ErrDetail where
  | badUpstream (text : String)
  | unexpectedFormat (response : Resp)
  | noTemperature (searchDateTime : DT)
deriving Repr

/-- A raised Python exception.  httpException carries status code and
detail; the others model stdlib exceptions raised by built-ins. -/
inductive PyError where
  | httpException (status : Nat) (detail : ErrDetail)
  | stopIteration
  | keyError
  | valueError
  | typeError
deriving Repr

/-- The TemperatureRangeResponse model (models.py): latitude, longitude and
the timestamp-to-temperature mapping, in insertion order. -/
structure TemperatureRangeResponse where
  latitude : Int
  longitude : Int
  temperatures : List (DT × JVal)
deriving Repr

/-- The TemperatureResponse model (models.py): a single measurement. -/
structure TemperatureResponse where
  latitude : Int
  longitude : Int
  measure_datetime : DT
  temperature : JVal
deriving Repr

/-! ### Calendar arithmetic backing datetime.fromisoformat -/

/-- Gregorian leap-year rule. -/
def isLeap (y : Nat) : Bool := y % 4 == 0 && (y % 100 != 0 || y % 400 == 0)

/-- Number of days in a month of a given year. -/
def daysInMonth (y m : Nat) : Nat :=
  if m = 2 then (if isLeap y then 29 else 28)
  else if m = 4 ∨ m = 6 ∨ m = 9 ∨ m = 11 then 30
  else 31

/-- Days in the months of year y strictly before month m. -/
def daysBeforeMonth (y m : Nat) : Nat :=
  (List.range (m - 1)).foldl (fun acc i => acc + daysInMonth y (i + 1)) 0

/-- Day number of a civil date, with 0001-01-01 as day zero
(proleptic Gregorian). -/
def daysFromCivil (y m d : Nat) : Nat :=
  365 * (y - 1) + ((y - 1) / 4 - (y - 1) / 100) + (y - 1) / 400
    + daysBeforeMonth y m + (d - 1)

/-- Minutes since 0001-01-01T00:00 of a civil date and time of day. -/
def toMinutes (y m d hh mm : Nat) : Nat :=
  1440 * daysFromCivil y m d + 60 * hh + mm

/-- Two-digit decimal field, or none if a character is not a digit. -/
def parseTwo (c1 c2 : Char) : Option Nat :=
  if c1.isDigit && c2.isDigit
  then some ((c1.toNat - 48) * 10 + (c2.toNat - 48))
  else none

/-- Four-digit decimal field, or none if a character is not a digit. -/
def parseFour (c1 c2 c3 c4 : Char) : Option Nat :=
  match parseTwo c1 c2, parseTwo c3 c4 with
  | some hi, some lo => some (hi * 100 + lo)
  | _, _ => none

/-- Models datetime.fromisoformat on the minute-precision timestamps the
upstream emits (shape YYYY-MM-DDTHH:MM): returns the parsed datetime, or
none for a string that is not a calendar-valid timestamp of that shape
(Python raises ValueError there). -/
def isoParse (s : String) : Option DT :=
  match s.toList with
  | [y1, y2, y3, y4, '-', m1, m2, '-', d1, d2, 'T', h1, h2, ':', n1, n2] =>
    match parseFour y1 y2 y3 y4, parseTwo m1 m2, parseTwo d1 d2,
          parseTwo h1 h2, parseTwo n1 n2 with
    | some y, some mo, some d, some hh, some mm =>
      if 1 ≤ y ∧ y ≤ 9999 ∧ 1 ≤ mo ∧ mo ≤ 12 ∧ 1 ≤ d ∧ d ≤ daysInMonth y mo
          ∧ hh ≤ 23 ∧ mm ≤ 59
      then some (toMinutes y mo d hh mm)
      else none
    | _, _, _, _, _ => none
  | _ => none

/-- datetime.fromisoformat applied to a JSON value: a parseable string
yields a datetime, an unparseable string raises ValueError, anything
that is not a string raises TypeError. -/
def fromisoformat (v : JVal) : Except PyError DT :=
  match v with
  | .jstr s =>
    match isoParse s with
    | some dt => .ok dt
    | none => .error .valueError
  | _ => .error .typeError

/-! ### The client (open_meteo_client.py) -/

/-- A Python date, as the datetime.date invariants guarantee it
(year 1..9999, month 1..12, day within the month). -/
structure PyDate where
  year : Nat
  month : Nat
  day : Nat
deriving Repr

/-- The invariant the datetime.date constructor enforces. -/
def PyDate.Valid (d : PyDate) : Prop :=
  1 ≤ d.year ∧ d.year ≤ 9999 ∧ 1 ≤ d.month ∧ d.month ≤ 12
    ∧ 1 ≤ d.day ∧ d.day ≤ daysInMonth d.year d.month

instance (d : PyDate) : Decidable d.Valid := by
  unfold PyDate.Valid; infer_instance

/-- Two zero-padded decimal digits, as strftime %m and %d render a month
or day. -/
def twoDigits (n : Nat) : List Char :=
  [Nat.digitChar (n / 10 % 10), Nat.digitChar (n % 10)]

/-- The year as glibc strftime %Y renders it: its plain decimal digits
with no zero padding, so fewer than four characters for years below 1000.
Written out per magnitude on the domain datetime.date admits (1..9999);
the final branch also covers any year of four or more digits dependably
as its last four digits, but years above 9999 are not constructible as
dates. -/
def yearChars (n : Nat) : List Char :=
  if n < 10 then [Nat.digitChar (n % 10)]
  else if n < 100 then [Nat.digitChar (n / 10 % 10), Nat.digitChar (n % 10)]
  else if n < 1000 then
    [Nat.digitChar (n / 100 % 10), Nat.digitChar (n / 10 % 10),
     Nat.digitChar (n % 10)]
  else
    [Nat.digitChar (n / 1000 % 10), Nat.digitChar (n / 100 % 10),
     Nat.digitChar (n / 10 % 10), Nat.digitChar (n % 10)]

/-- date.strftime with the DATE_FORMAT constant %Y-%m-%d, as the platform
strftime the code relies on renders it: month and day always two
zero-padded digits, the year unpadded. -/
def strftimeDate (d : PyDate) : String :=
  ⟨yearChars d.year ++ '-' :: twoDigits d.month ++ '-' :: twoDigits d.day⟩

/-- OpenMeteoClient.__build_request_params: the query-parameter dictionary
for the upstream request.  A missing end date falls back to the start date
(end_date or start_date: None is falsy, a date object is always truthy).
Total: no error conditions. -/
def build_request_params (latitude longitude : Int) (start_date : PyDate)
    (end_date : Option PyDate := none) : List (String × String) :=
  [("hourly", "temperature_2m"),
   ("latitude", toString latitude),
   ("longitude", toString longitude),
   ("start_date", strftimeDate start_date),
   ("end_date", strftimeDate (end_date.getD start_date))]

/-- The HTTP response of the upstream call, as the requests library exposes
it to this client: status code, body text, and the body parsed as JSON
(the upstream is a JSON API; body decoding is outside the client). -/
structure HttpResponse where
  status_code : Nat
  text : String
  json : Resp

/-- OpenMeteoClient.__fetch_request, after the external GET returned:
any status other than 200 raises HTTPException with that status and the
body text embedded in the detail; otherwise the parsed JSON body is
returned. -/
def fetch_request (response : HttpResponse) : Except PyError Resp :=
  if response.status_code ≠ 200 then
    .error (.httpException response.status_code (.badUpstream response.text))
  else
    .ok response.json

/-- The value arrays of the hourly object in emission order:
response.get(hourly, empty).values(). -/
def hourlyValues (r : Resp) : List JVal :=
  (r.hourly.getD []).map Prod.snd

/-- Checks every value is a JSON array, returning the element lists;
models that zip(*values) raises TypeError on a non-iterable argument
(a non-list value; a string argument would zip its characters, which
then fail fromisoformat, reaching the same caught-and-wrapped error). -/
def allArrays : List JVal → Option (List (List JVal))
  | [] => some []
  | .jarr xs :: vs => (allArrays vs).map (xs :: ·)
  | _ => none

/-- zip(*values) consumed by unpacking each tuple into two variables:
with exactly two arrays it pairs them index by index, truncating to the
shorter; with zero arrays, or when some array is empty, the zip is empty;
otherwise unpacking a tuple of the wrong arity raises ValueError. -/
def zipUnpackPairs (values : List JVal) : Except PyError (List (JVal × JVal)) :=
  match allArrays values with
  | none => .error .typeError
  | some lists =>
    match lists with
    | [] => .ok []
    | [xs, ys] => .ok (xs.zip ys)
    | more => if more.any List.isEmpty then .ok [] else .error .valueError

/-- Converts each zipped pair by running fromisoformat on its first
component, stopping at the first raised error. -/
def convertPairs : List (JVal × JVal) → Except PyError (List (DT × JVal))
  | [] => .ok []
  | (k, v) :: rest =>
    match fromisoformat k with
    | .error e => .error e
    | .ok dt =>
      match convertPairs rest with
      | .error e => .error e
      | .ok tail => .ok ((dt, v) :: tail)

/-- Python dict insertion on an association list: overwrite in place if the
key exists, append otherwise. -/
def dictInsert (d : List (DT × JVal)) (k : DT) (v : JVal) : List (DT × JVal) :=
  if d.any (fun p => p.1 == k) then
    d.map (fun p => if p.1 == k then (p.1, v) else p)
  else d ++ [(k, v)]

/-- The dict comprehension: insert the converted pairs left to right. -/
def buildDict (ps : List (DT × JVal)) : List (DT × JVal) :=
  ps.foldl (fun d p => dictInsert d p.1 p.2) []

/-- The body of the try block in OpenMeteoClient._parse_temperature_dict:
zip the hourly value arrays, parse each timestamp, build the dict.  Every
error this can raise is a ValueError or TypeError, exactly the classes the
except clause catches. -/
def parseAttempt (r : Resp) : Except PyError (List (DT × JVal)) :=
  match zipUnpackPairs (hourlyValues r) with
  | .error e => .error e
  | .ok pairs =>
    match convertPairs pairs with
    | .error e => .error e
    | .ok conv => .ok (buildDict conv)

/-- OpenMeteoClient._parse_temperature_dict: the try block with its except
clause, which wraps any ValueError or TypeError into HTTPException 500
whose detail embeds the whole raw response. -/
def parse_temperature_dict (r : Resp) : Except PyError (List (DT × JVal)) :=
  match parseAttempt r with
  | .ok d => .ok d
  | .error _ => .error (.httpException 500 (.unexpectedFormat r))

/-- OpenMeteoClient.__parse_response: the temperature dict plus top-level
latitude and longitude, each defaulting to 0.0 when absent. -/
def parse_response (r : Resp) : Except PyError TemperatureRangeResponse :=
  match parse_temperature_dict r with
  | .error e => .error e
  | .ok td => .ok ⟨r.latitude.getD 0, r.longitude.getD 0, td⟩

/-- OpenMeteoClient.__find_closest_date:
next(iter(sorted(dates, key=lambda x: abs(x - search_date)))).
Python sorted is a stable sort by the key; a stable sort by a key is
determined uniquely by its input, so the stable insertionSort below is
observably identical to it.  next on the empty iterator raises
StopIteration, modelled as none. -/
def find_closest_date (search_through_dates : List DT) (search_date : DT) :
    Option DT :=
  (List.insertionSort
    (fun a b => absDiff a search_date ≤ absDiff b search_date)
    search_through_dates).head?

/-- Python truthiness of a datetime object: datetime defines neither
__bool__ nor __len__, so bool(dt) is always True. -/
def dtIsFalsy (_ : DT) : Bool := false

/-- OpenMeteoClient.fetch_temperature, from the point the upstream HTTP
response is in hand (building the parameters and the GET itself are
external).  Note the not-found branch tests the truthiness of the returned
datetime, which is always truthy; an empty candidate set instead raises
StopIteration out of find_closest_date. -/
def fetch_temperature (upstream : HttpResponse) (search_date_time : DT) :
    Except PyError TemperatureResponse :=
  match fetch_request upstream with
  | .error e => .error e
  | .ok body =>
    match parse_response body with
    | .error e => .error e
    | .ok parsed =>
      match find_closest_date (parsed.temperatures.map Prod.fst)
          search_date_time with
      | none => .error .stopIteration
      | some closest =>
        if dtIsFalsy closest then
          .error (.httpException 404 (.noTemperature search_date_time))
        else
          match parsed.temperatures.lookup closest with
          | none => .error .keyError
          | some temp =>
            .ok ⟨parsed.latitude, parsed.longitude, closest, temp⟩

/-- OpenMeteoClient.__filter_temperatures: if not filter_by_hour (None and
0 are falsy) the mapping is untouched; otherwise every entry whose hour
attribute differs from the filter value is deleted.  Deleting from a
snapshot of the keys in insertion order leaves exactly the matching
entries, in order. -/
def filter_temperatures (temperatures : List (DT × JVal))
    (filter_by_hour : Option Nat) : List (DT × JVal) :=
  match filter_by_hour with
  | none => temperatures
  | some h =>
    if h = 0 then temperatures
    else temperatures.filter (fun p => hourOf p.1 == h)

/-- OpenMeteoClient.fetch_temperature_range, from the point the upstream
HTTP response is in hand: parse, filter the temperatures in place, return
the parsed response. -/
def fetch_temperature_range (upstream : HttpResponse)
    (filter_by_hour : Option Nat) : Except PyError TemperatureRangeResponse :=
  match fetch_request upstream with
  | .error e => .error e
  | .ok body =>
    match parse_response body with
    | .error e => .error e
    | .ok parsed =>
      .ok { parsed with
            temperatures := filter_temperatures parsed.temperatures
              filter_by_hour }

end OpenMeteo

namespace OpenMeteo

/-! ### Helper lemmas -/

/-- The hour attribute of any datetime is below 24. -/
theorem hourOf_lt_24 (dt : DT) : hourOf dt < 24 := by
  unfold hourOf
  omega

/-! ### C1 -/

/-- An upstream body whose hourly arrays are both empty: it parses to an
empty candidate set of timestamps. -/
def emptySeriesBody : Resp :=
  ⟨some 52, some 13,
   some [("time", .jarr []), ("temperature_2m", .jarr [])]⟩

/-- C1: the claim says that with an empty candidate set fetch_temperature
fails with NotFound (404).  In the code, next() on the empty iterator
raises StopIteration before the 404 branch is reached, and the 404 branch
itself tests the truthiness of a datetime, which is always truthy; so the
operation fails with StopIteration, which is not an HTTPException of any
status.  This theorem evaluates the code at the failing input. -/
theorem fetch_temperature_empty_raises_stopIteration :
    fetch_temperature ⟨200, "ok", emptySeriesBody⟩ 1000 =
      .error .stopIteration ∧
    ∀ status detail,
      (PyError.stopIteration ≠ PyError.httpException status detail) := by
  refine ⟨rfl, ?_⟩
  intro status detail h
  cases h

end OpenMeteo

namespace OpenMeteo

/-! ### C5 -/

/-- C5 counterexample: 201 is a success (2xx) status, yet the fetcher
raises rather than returning the parsed body, because the code compares
the status against exactly 200. -/
theorem fetch_request_201_is_error :
    (200 ≤ 201 ∧ 201 < 300) ∧
    fetch_request ⟨201, "created", ⟨none, none, none⟩⟩ =
      .error (.httpException 201 (.badUpstream "created")) :=
  ⟨by omega, rfl⟩

/-- C5 amended: the fetcher fails if and only if the status differs from
exactly 200; on failure the error carries the upstream status code and the
body text, and on status 200 it returns the parsed JSON body. -/
theorem fetch_request_spec (r : HttpResponse) :
    (r.status_code = 200 → fetch_request r = .ok r.json) ∧
    (r.status_code ≠ 200 → fetch_request r =
      .error (.httpException r.status_code (.badUpstream r.text))) := by
  unfold fetch_request
  constructor
  · intro h
    simp [h]
  · intro h
    simp [h]

/-- C5 witness: the amended theorem at a 200 response and at a 404
response. -/
theorem fetch_request_spec_witness :
    fetch_request ⟨200, "ok", ⟨some 52, none, none⟩⟩ =
      .ok ⟨some 52, none, none⟩ ∧
    fetch_request ⟨404, "not found", ⟨none, none, none⟩⟩ =
      .error (.httpException 404 (.badUpstream "not found")) :=
  ⟨(fetch_request_spec ⟨200, "ok", ⟨some 52, none, none⟩⟩).1 rfl,
   (fetch_request_spec ⟨404, "not found", ⟨none, none, none⟩⟩).2 (by decide)⟩

/-! ### C8 -/

/-- C8: the parsed series reads latitude and longitude from the top-level
fields of the body, defaulting each to 0.0 when the field is absent. -/
theorem parse_response_latlon (r : Resp) (out : TemperatureRangeResponse)
    (h : parse_response r = .ok out) :
    (r.latitude = none → out.latitude = 0) ∧
    (∀ x, r.latitude = some x → out.latitude = x) ∧
    (r.longitude = none → out.longitude = 0) ∧
    (∀ x, r.longitude = some x → out.longitude = x) := by
  unfold parse_response at h
  cases hp : parse_temperature_dict r with
  | error e => rw [hp] at h; cases h
  | ok td =>
    rw [hp] at h
    injection h with h
    subst h
    refine ⟨fun hl => ?_, fun x hl => ?_, fun hl => ?_, fun x hl => ?_⟩ <;>
      simp [hl]

/-- C8 witness: a body missing both fields yields 0 for both, and a body
carrying both yields them unchanged. -/
theorem parse_response_latlon_witness :
    ((⟨none, none, none⟩ : Resp).latitude = none →
      (⟨0, 0, []⟩ : TemperatureRangeResponse).latitude = 0) ∧
    (∀ x, (⟨some 52, some 13, none⟩ : Resp).latitude = some x →
      (⟨52, 13, []⟩ : TemperatureRangeResponse).latitude = x) :=
  ⟨(parse_response_latlon ⟨none, none, none⟩ ⟨0, 0, []⟩ rfl).1,
   (parse_response_latlon ⟨some 52, some 13, none⟩ ⟨52, 13, []⟩ rfl).2.1⟩

/-! ### C3 -/

/-- C3: with filter value absent or 0 the mapping is unchanged; with any
other filter value the result holds exactly the entries whose hour of day
equals the filter value. -/
theorem filter_temperatures_spec (m : List (DT × JVal)) (h : Nat) :
    filter_temperatures m none = m ∧
    filter_temperatures m (some 0) = m ∧
    (h ≠ 0 → ∀ p, p ∈ filter_temperatures m (some h) ↔
      p ∈ m ∧ hourOf p.1 = h) := by
  refine ⟨rfl, rfl, fun hne p => ?_⟩
  simp [filter_temperatures, hne, List.mem_filter]

/-- Entries at hours 0, 6, 12, 18 over two consecutive days, as minutes:
day one starts at minute 0, day two at minute 1440. -/
def twoDayMap : List (DT × JVal) :=
  [(0, .jnum 1), (360, .jnum 2), (720, .jnum 3), (1080, .jnum 4),
   (1440, .jnum 5), (1800, .jnum 6), (2160, .jnum 7), (2520, .jnum 8)]

/-- C3 witness: on the two-day example, absent and 0 filters are no-ops,
the membership characterization holds at the first noon entry, and the
hour-12 filter retains exactly the two noon entries. -/
theorem filter_temperatures_spec_witness :
    filter_temperatures twoDayMap none = twoDayMap ∧
    filter_temperatures twoDayMap (some 0) = twoDayMap ∧
    ((720, JVal.jnum 3) ∈ filter_temperatures twoDayMap (some 12) ↔
      (720, JVal.jnum 3) ∈ twoDayMap ∧ hourOf 720 = 12) ∧
    filter_temperatures twoDayMap (some 12) =
      [(720, .jnum 3), (2160, .jnum 7)] :=
  ⟨(filter_temperatures_spec twoDayMap 12).1,
   (filter_temperatures_spec twoDayMap 12).2.1,
   (filter_temperatures_spec twoDayMap 12).2.2 (by omega) (720, JVal.jnum 3),
   rfl⟩

/-! ### C9 -/

/-- C9: filter_by_hour = 24 is accepted by the public interface
(Query ge=0 le=24 in main.py), but every parsed timestamp has an hour
attribute in 0..23, so the filter removes every entry and the range
operation returns an empty temperatures mapping. -/
theorem fetch_temperature_range_hour24_empty (upstream : HttpResponse)
    (out : TemperatureRangeResponse)
    (h : fetch_temperature_range upstream (some 24) = .ok out) :
    out.temperatures = [] := by
  have hfilter : ∀ m : List (DT × JVal),
      filter_temperatures m (some 24) = [] := by
    intro m
    show (if (24 : Nat) = 0 then m
          else m.filter (fun p => hourOf p.1 == 24)) = []
    rw [if_neg (by omega)]
    rw [List.filter_eq_nil_iff]
    intro p _
    have h24 := hourOf_lt_24 p.1
    simp only [beq_iff_eq]
    omega
  unfold fetch_temperature_range at h
  split at h
  · cases h
  · split at h
    · cases h
    · injection h with h
      subst h
      exact hfilter _

/-- C9 witness: a concrete two-entry series filtered with hour 24 comes
back empty. -/
theorem fetch_temperature_range_hour24_empty_witness :
    (⟨52, 13, []⟩ : TemperatureRangeResponse).temperatures = [] :=
  fetch_temperature_range_hour24_empty
    ⟨200, "ok",
     ⟨some 52, some 13,
      some [("time", .jarr [.jstr "2023-01-01T00:00",
                            .jstr "2023-01-01T12:00"]),
            ("temperature_2m", .jarr [.jnum 5, .jnum 6])]⟩⟩
    ⟨52, 13, []⟩ rfl

end OpenMeteo

namespace OpenMeteo

/-! ### C4 -/

/-- The last decimal digit of any natural number renders as a digit
character. -/
theorem digitChar_mod_isDigit (n : Nat) :
    (Nat.digitChar (n % 10)).isDigit = true := by
  have hlt : n % 10 < 10 := Nat.mod_lt _ (by omega)
  revert hlt
  generalize n % 10 = k
  intro hlt
  interval_cases k <;> decide

/-- The shape YYYY-MM-DD: ten characters, digits except for dashes at
positions 4 and 7. -/
def isDateShape (s : String) : Prop :=
  match s.toList with
  | [c0, c1, c2, c3, c4, c5, c6, c7, c8, c9] =>
    c0.isDigit ∧ c1.isDigit ∧ c2.isDigit ∧ c3.isDigit ∧ c4 = '-' ∧
    c5.isDigit ∧ c6.isDigit ∧ c7 = '-' ∧ c8.isDigit ∧ c9.isDigit
  | _ => False

/-- For a year of at least 1000, strftime with %Y-%m-%d renders ten
characters in the YYYY-MM-DD shape. -/
theorem strftimeDate_shape_of_ge_1000 (d : PyDate) (hy : 1000 ≤ d.year) :
    isDateShape (strftimeDate d) := by
  unfold strftimeDate yearChars
  rw [if_neg (by omega), if_neg (by omega), if_neg (by omega)]
  show isDateShape ⟨_⟩
  refine ⟨?_, ?_, ?_, ?_, rfl, ?_, ?_, rfl, ?_, ?_⟩ <;>
    exact digitChar_mod_isDigit _

/-- C4 counterexample: for start date 0005-01-01 the builder emits
start_date 5-01-01 — the platform strftime renders %Y unpadded, so a year
below 1000 breaks the claimed universal YYYY-MM-DD format while the
builder still succeeds. -/
theorem build_request_params_year5_not_padded :
    (build_request_params 52 13 ⟨5, 1, 1⟩ none).lookup "start_date" =
      some "5-01-01" ∧
    ¬ isDateShape "5-01-01" :=
  ⟨rfl, fun h => h⟩

/-- C4 amended: for every coordinate pair, start date and optional end
date, the built parameter dictionary maps hourly to temperature_2m,
carries the coordinates as strings, carries both dates rendered with
%Y-%m-%d (month and day always two zero-padded digits, the year unpadded),
and uses the start date as end date when the end date is absent; the
rendered dates have the YYYY-MM-DD shape whenever the year is at least
1000 — in particular for every date the upstream archive can serve — but
not for smaller years.  The builder is a total function: it never
fails. -/
theorem build_request_params_spec (lat lon : Int) (sd : PyDate)
    (ed : Option PyDate) :
    (build_request_params lat lon sd ed).lookup "hourly" =
      some "temperature_2m" ∧
    (build_request_params lat lon sd ed).lookup "latitude" =
      some (toString lat) ∧
    (build_request_params lat lon sd ed).lookup "longitude" =
      some (toString lon) ∧
    (build_request_params lat lon sd ed).lookup "start_date" =
      some (strftimeDate sd) ∧
    (build_request_params lat lon sd ed).lookup "end_date" =
      some (strftimeDate (ed.getD sd)) ∧
    (ed = none →
      (build_request_params lat lon sd ed).lookup "end_date" =
        (build_request_params lat lon sd ed).lookup "start_date") ∧
    (1000 ≤ sd.year → isDateShape (strftimeDate sd)) ∧
    (1000 ≤ (ed.getD sd).year → isDateShape (strftimeDate (ed.getD sd))) := by
  refine ⟨?_, ?_, ?_, ?_, ?_, ?_, strftimeDate_shape_of_ge_1000 sd,
    strftimeDate_shape_of_ge_1000 _⟩ <;>
    simp [build_request_params, List.lookup]
  intro h
  subst h
  rfl

/-- C4 witness: the theorem evaluated at latitude 52, longitude 13,
start date 2023-07-05 and no end date. -/
theorem build_request_params_spec_witness :
    (build_request_params 52 13 ⟨2023, 7, 5⟩ none).lookup "hourly" =
      some "temperature_2m" ∧
    (build_request_params 52 13 ⟨2023, 7, 5⟩ none).lookup "end_date" =
      (build_request_params 52 13 ⟨2023, 7, 5⟩ none).lookup "start_date" ∧
    isDateShape (strftimeDate ⟨2023, 7, 5⟩) ∧
    strftimeDate (⟨2023, 7, 5⟩ : PyDate) = "2023-07-05" :=
  ⟨(build_request_params_spec 52 13 ⟨2023, 7, 5⟩ none).1,
   (build_request_params_spec 52 13 ⟨2023, 7, 5⟩ none).2.2.2.2.2.1 rfl,
   (build_request_params_spec 52 13 ⟨2023, 7, 5⟩ none).2.2.2.2.2.2.1
     (by decide),
   rfl⟩

end OpenMeteo

namespace OpenMeteo

/-! ### C2 -/

/-- C2: on every non-empty candidate list the selector returns a candidate
whose absolute distance to the target is minimal over the whole list. -/
theorem find_closest_date_spec (dates : List DT) (target : DT)
    (hne : dates ≠ []) :
    ∃ c, find_closest_date dates target = some c ∧ c ∈ dates ∧
      ∀ x ∈ dates, absDiff c target ≤ absDiff x target := by
  unfold find_closest_date
  have htotal : IsTotal DT (fun a b => absDiff a target ≤ absDiff b target) :=
    ⟨fun a b => Nat.le_total _ _⟩
  have htrans : IsTrans DT (fun a b => absDiff a target ≤ absDiff b target) :=
    ⟨fun a b c => Nat.le_trans⟩
  have hperm := List.perm_insertionSort
    (fun a b => absDiff a target ≤ absDiff b target) dates
  have hsorted := List.sorted_insertionSort
    (fun a b => absDiff a target ≤ absDiff b target) dates
  cases hs : List.insertionSort
      (fun a b => absDiff a target ≤ absDiff b target) dates with
  | nil =>
    rw [hs] at hperm
    exact absurd (hperm.symm.eq_nil) hne
  | cons c rest =>
    rw [hs] at hperm hsorted
    refine ⟨c, rfl, hperm.subset (List.mem_cons_self c rest), ?_⟩
    intro x hx
    rcases List.mem_cons.mp (hperm.symm.subset hx) with hxc | hxrest
    · subst hxc
      exact Nat.le_refl _
    · exact (List.pairwise_cons.mp hsorted).1 x hxrest

/-- C2 witness: with candidates at two hours before, exactly at, and three
hours after the target (minutes 600, 720, 900 with target 720), the
selector returns a minimizer, and concretely it returns the target
itself. -/
theorem find_closest_date_spec_witness :
    (∃ c, find_closest_date [600, 720, 900] 720 = some c ∧
      c ∈ [600, 720, 900] ∧
      ∀ x ∈ [600, 720, 900], absDiff c 720 ≤ absDiff x 720) ∧
    find_closest_date [600, 720, 900] 720 = some 720 :=
  ⟨find_closest_date_spec [600, 720, 900] 720 (by decide), rfl⟩

end OpenMeteo

namespace OpenMeteo

/-! ### C10 -/

/-- The fetcher only returns the parsed JSON body of the response it was
given. -/
theorem fetch_request_ok_json (r : HttpResponse) (body : Resp)
    (h : fetch_request r = .ok body) : body = r.json := by
  unfold fetch_request at h
  split at h
  · cases h
  · injection h with h
    exact h.symm

/-- The hour filter never adds or reorders entries: its output is a
sublist of its input. -/
theorem filter_temperatures_sublist (m : List (DT × JVal))
    (fh : Option Nat) : (filter_temperatures m fh).Sublist m := by
  match fh with
  | none => exact List.Sublist.refl m
  | some hv =>
    show (if hv = 0 then m else m.filter (fun p => hourOf p.1 == hv)).Sublist m
    split
    · exact List.Sublist.refl m
    · exact List.filter_sublist m

/-- C10: whenever the range operation succeeds, its latitude and longitude
are exactly those of the parsed series, its temperatures are a sublist of
the parsed temperatures, and every retained timestamp keeps its original
temperature value. -/
theorem fetch_temperature_range_frame (upstream : HttpResponse)
    (fh : Option Nat) (out : TemperatureRangeResponse)
    (h : fetch_temperature_range upstream fh = .ok out) :
    ∃ parsed, parse_response upstream.json = .ok parsed ∧
      out.latitude = parsed.latitude ∧
      out.longitude = parsed.longitude ∧
      out.temperatures.Sublist parsed.temperatures ∧
      ∀ dt v, (dt, v) ∈ out.temperatures → (dt, v) ∈ parsed.temperatures := by
  unfold fetch_temperature_range at h
  split at h
  · cases h
  · rename_i body hfr
    split at h
    · cases h
    · rename_i parsed hpr
      injection h with h
      subst h
      have hbody := fetch_request_ok_json upstream body hfr
      subst hbody
      refine ⟨parsed, hpr, rfl, rfl, filter_temperatures_sublist _ _, ?_⟩
      intro dt v hmem
      exact (filter_temperatures_sublist parsed.temperatures fh).subset hmem

/-- C10 witness: the theorem at a concrete 200 response with a two-entry
series and an hour-12 filter, together with the concrete evaluation. -/
theorem fetch_temperature_range_frame_witness :
    (∃ parsed,
      parse_response
        (⟨200, "ok",
          ⟨some 52, some 13,
           some [("time", .jarr [.jstr "2023-01-01T00:00",
                                 .jstr "2023-01-01T12:00"]),
                 ("temperature_2m",
                  .jarr [.jnum 5, .jnum 6])]⟩⟩ : HttpResponse).json =
          .ok parsed ∧
      (⟨52, 13, [(toMinutes 2023 1 1 12 0, .jnum 6)]⟩ :
          TemperatureRangeResponse).latitude = parsed.latitude ∧
      (⟨52, 13, [(toMinutes 2023 1 1 12 0, .jnum 6)]⟩ :
          TemperatureRangeResponse).longitude = parsed.longitude ∧
      (⟨52, 13, [(toMinutes 2023 1 1 12 0, .jnum 6)]⟩ :
          TemperatureRangeResponse).temperatures.Sublist
        parsed.temperatures ∧
      ∀ dt v,
        (dt, v) ∈ (⟨52, 13, [(toMinutes 2023 1 1 12 0, .jnum 6)]⟩ :
          TemperatureRangeResponse).temperatures →
        (dt, v) ∈ parsed.temperatures) :=
  fetch_temperature_range_frame
    ⟨200, "ok",
     ⟨some 52, some 13,
      some [("time", .jarr [.jstr "2023-01-01T00:00",
                            .jstr "2023-01-01T12:00"]),
            ("temperature_2m", .jarr [.jnum 5, .jnum 6])]⟩⟩
    (some 12)
    ⟨52, 13, [(toMinutes 2023 1 1 12 0, .jnum 6)]⟩
    rfl

end OpenMeteo

namespace OpenMeteo

/-! ### C6 -/

/-- If some zipped pair holds a timestamp that fromisoformat rejects, the
conversion raises. -/
theorem convertPairs_error_of_bad (ps : List (JVal × JVal))
    (hbad : ∃ p ∈ ps, ∀ dt, fromisoformat p.1 ≠ .ok dt) :
    ∃ e, convertPairs ps = .error e := by
  induction ps with
  | nil =>
    rcases hbad with ⟨p, hp, _⟩
    cases hp
  | cons q rest ih =>
    obtain ⟨k, v⟩ := q
    rcases hbad with ⟨p, hp, hbadp⟩
    rcases List.mem_cons.mp hp with rfl | hmem
    · cases hq : fromisoformat k with
      | error e => exact ⟨e, by simp only [convertPairs, hq]⟩
      | ok dt => exact absurd hq (hbadp dt)
    · cases hq : fromisoformat k with
      | error e => exact ⟨e, by simp only [convertPairs, hq]⟩
      | ok dt =>
        obtain ⟨e, he⟩ := ih ⟨p, hmem, hbadp⟩
        exact ⟨e, by simp only [convertPairs, hq, he]⟩

/-- C6 amended: every failure of the series parser is an HTTPException
with status 500 whose detail embeds the whole raw body, and any zipped
pair whose timestamp fromisoformat rejects (an unparseable string, or a
non-string value) forces exactly that failure; mismatched array lengths,
however, are silently truncated by the positional zip rather than
rejected, as the counterexample shows. -/
theorem parse_temperature_dict_errors_spec (r : Resp) :
    (∀ e, parse_temperature_dict r = .error e →
      e = .httpException 500 (.unexpectedFormat r)) ∧
    (∀ pairs, zipUnpackPairs (hourlyValues r) = .ok pairs →
      (∃ p ∈ pairs, ∀ dt, fromisoformat p.1 ≠ .ok dt) →
      parse_temperature_dict r =
        .error (.httpException 500 (.unexpectedFormat r))) := by
  constructor
  · intro e he
    unfold parse_temperature_dict at he
    split at he
    · cases he
    · injection he with he
      exact he.symm
  · intro pairs hzip hbad
    obtain ⟨e, hc⟩ := convertPairs_error_of_bad pairs hbad
    simp only [parse_temperature_dict, parseAttempt, hzip, hc]

/-- A body whose time array has three entries but whose temperature array
has two. -/
def mismatchedBody : Resp :=
  ⟨some 52, some 13,
   some [("time", .jarr [.jstr "2023-01-01T00:00",
                         .jstr "2023-01-01T01:00",
                         .jstr "2023-01-01T02:00"]),
         ("temperature_2m", .jarr [.jnum 5, .jnum 6])]⟩

/-- C6 counterexample: with hourly arrays of mismatched lengths the parser
does not fail at all; zip silently truncates to the shorter array and a
partial mapping, built from only the first two of the three timestamps, is
returned. -/
theorem parse_temperature_dict_mismatched_truncates :
    parse_temperature_dict mismatchedBody =
      .ok [(toMinutes 2023 1 1 0 0, .jnum 5),
           (toMinutes 2023 1 1 1 0, .jnum 6)] := by
  rfl

/-- A body whose single timestamp is not an ISO-8601 string. -/
def badStampBody : Resp :=
  ⟨some 52, some 13,
   some [("time", .jarr [.jstr "not-an-iso-stamp"]),
         ("temperature_2m", .jarr [.jnum 5])]⟩

/-- C6 witness: the amended theorem applied to the unparseable-timestamp
body yields the 500 error carrying that raw body. -/
theorem parse_temperature_dict_errors_spec_witness :
    parse_temperature_dict badStampBody =
      .error (.httpException 500 (.unexpectedFormat badStampBody)) :=
  (parse_temperature_dict_errors_spec badStampBody).2
    [(.jstr "not-an-iso-stamp", .jnum 5)] rfl
    ⟨(.jstr "not-an-iso-stamp", .jnum 5), List.mem_cons_self _ _,
     fun _ h => Except.noConfusion h⟩

end OpenMeteo

namespace OpenMeteo

/-! ### C7 -/

/-- When every timestamp string parses, conversion of the zipped pairs
succeeds and pairs the parsed timestamps with the temperatures
index by index. -/
theorem convertPairs_all_parse (ts : List String) (dts : List DT)
    (vs : List JVal)
    (hconv : List.Forall₂ (fun s dt => isoParse s = some dt) ts dts) :
    convertPairs ((ts.map JVal.jstr).zip vs) = .ok (dts.zip vs) := by
  induction hconv generalizing vs with
  | nil => rfl
  | @cons s dt ts dts hsd _ ih =>
    cases vs with
    | nil => rfl
    | cons v vs =>
      have h1 : fromisoformat (JVal.jstr s) = .ok dt := by
        simp [fromisoformat, hsd]
      show convertPairs ((JVal.jstr s, v) :: (List.map JVal.jstr ts).zip vs) =
        .ok ((dt, v) :: dts.zip vs)
      simp only [convertPairs, h1, ih vs]

/-- Folding dict insertion over pairs whose keys are all fresh appends
them in order. -/
theorem foldl_dictInsert_app (ps : List (DT × JVal)) :
    ∀ acc : List (DT × JVal), ((acc ++ ps).map Prod.fst).Nodup →
      ps.foldl (fun d p => dictInsert d p.1 p.2) acc = acc ++ ps := by
  induction ps with
  | nil =>
    intro acc _
    simp
  | cons q rest ih =>
    intro acc hnd
    obtain ⟨k, v⟩ := q
    have hk : k ∉ acc.map Prod.fst := by
      intro hkmem
      rw [List.map_append] at hnd
      exact (List.nodup_append.mp hnd).2.2 hkmem (by simp)
    have hany : (acc.any fun p => p.1 == k) = false := by
      rw [List.any_eq_false]
      intro p hp
      simp only [beq_iff_eq]
      intro hpk
      exact hk (List.mem_map.mpr ⟨p, hp, hpk⟩)
    rw [List.foldl_cons]
    have hins : dictInsert acc k v = acc ++ [(k, v)] := by
      rw [dictInsert, if_neg (by simp [hany])]
    rw [hins]
    have hnd2 : (((acc ++ [(k, v)]) ++ rest).map Prod.fst).Nodup := by
      simpa [List.append_assoc] using hnd
    rw [ih (acc ++ [(k, v)]) hnd2, List.append_assoc]
    rfl

/-- The dict comprehension leaves a duplicate-free pairing unchanged. -/
theorem buildDict_of_nodup (ps : List (DT × JVal))
    (hnd : (ps.map Prod.fst).Nodup) : buildDict ps = ps :=
  foldl_dictInsert_app ps [] (by simpa using hnd)

/-- C7: for a well-formed body, whatever the two key names of the hourly
object are, the parser zips its value arrays positionally: each parsed
timestamp is mapped to the temperature at the same index. -/
theorem parse_temperature_dict_positional (lat lon : Option Int)
    (k1 k2 : String) (_hk : k1 ≠ k2)
    (ts : List String) (dts : List DT) (vs : List JVal)
    (hconv : List.Forall₂ (fun s dt => isoParse s = some dt) ts dts)
    (hlen : ts.length = vs.length)
    (hnd : dts.Nodup) :
    parse_temperature_dict
      ⟨lat, lon, some [(k1, .jarr (ts.map .jstr)), (k2, .jarr vs)]⟩ =
      .ok (dts.zip vs) := by
  have hzip : zipUnpackPairs (hourlyValues
      ⟨lat, lon, some [(k1, .jarr (ts.map .jstr)), (k2, .jarr vs)]⟩) =
      .ok ((ts.map JVal.jstr).zip vs) := rfl
  have hc := convertPairs_all_parse ts dts vs hconv
  have hdlen : ts.length = dts.length := hconv.length_eq
  have hfst : (dts.zip vs).map Prod.fst = dts :=
    List.map_fst_zip dts vs (by omega)
  have hb : buildDict (dts.zip vs) = dts.zip vs :=
    buildDict_of_nodup _ (by rw [hfst]; exact hnd)
  simp only [parse_temperature_dict, parseAttempt, hzip, hc, hb]

/-- C7 witness: the spec example, with key names time and temperature_2m:
hourly arrays time = [2023-01-01T00:00, 2023-01-01T01:00] and
temperature_2m = [5, 6] produce the two-entry mapping in order. -/
theorem parse_temperature_dict_positional_witness :
    parse_temperature_dict
      ⟨some 52, some 13,
       some [("time", .jarr [.jstr "2023-01-01T00:00",
                             .jstr "2023-01-01T01:00"]),
             ("temperature_2m", .jarr [.jnum 5, .jnum 6])]⟩ =
      .ok [(toMinutes 2023 1 1 0 0, .jnum 5),
           (toMinutes 2023 1 1 1 0, .jnum 6)] :=
  parse_temperature_dict_positional (some 52) (some 13)
    "time" "temperature_2m" (by decide)
    ["2023-01-01T00:00", "2023-01-01T01:00"]
    [toMinutes 2023 1 1 0 0, toMinutes 2023 1 1 1 0]
    [.jnum 5, .jnum 6]
    (.cons rfl (.cons rfl .nil))
    rfl (by decide)

end OpenMeteo
